import Mathlib

set_option maxHeartbeats 1000000
set_option maxRecDepth 4000
set_option linter.unusedVariables false

/-!
Verification development for the shared-memory transport backend in
src/src/trans_shm.c. Every definition below is a shallow embedding of the
named C function or code block; line numbers refer to that file.
-/

/-- Connection states written by trans_shm.c: MSK_INIT at line 322 and
MSK_CLOSED at line 243 (MSK_CONNECTED belongs to the same enumeration of the
public header). -/
inductive msk_state
  | MSK_INIT
  | MSK_CONNECTED
  | MSK_CLOSED
deriving DecidableEq

/-- struct msk_ctx (lines 61-66): the in-use flag, the borrowed data buffer
(abstracted to a payload identifier) and whether a completion callback is
registered (the callback pointer being non-NULL). The callback argument plays
no role in any claim and is omitted. -/
structure msk_ctx where
  used : Bool
  pdata : Nat
  callback : Bool
deriving DecidableEq

/-- The all-zero slot produced by the memset of lines 362 and 370. -/
def ctxDefault : msk_ctx := { used := false, pdata := 0, callback := false }

/-- One direction of a connection: the context-slot array (trans->send_buf with
depth trans->sq_depth, or trans->recv_buf with depth trans->rq_depth), the
pending queue (the msk_sem ctx_head..ctx_last chain of lines 86-91, stored as
the list of slot indices with the head first), and ghost histories: the posts
in call order, the requests moved through the mailbox in service order, and the
completion callbacks fired in firing order. -/
structure Engine where
  pool : List msk_ctx
  ctxq : List Nat
  posted : List (Nat × Bool)
  serviced : List (Nat × Bool)
  fired : List Nat
deriving DecidableEq

/-- A fresh direction after msk_setup_buffer zeroed the pool (lines 357-370):
depth zeroed slots, empty queue, empty histories. -/
def initEngine (depth : Nat) : Engine :=
  { pool := List.replicate depth ctxDefault
    ctxq := []
    posted := []
    serviced := []
    fired := [] }

/-- The slot scan of msk_post_n_send lines 676-688 (identical in
msk_post_n_recv lines 618-630): the first index whose in-use flag is clear,
none when every slot is taken. -/
def findFree : List msk_ctx → Option Nat
  | [] => none
  | c :: rest => if c.used then (findFree rest).map (fun k => k + 1) else some 0

/-- Outcome of a post call: a returned code together with the new direction
state, a caller left suspended on the condition variable because every slot is
in use, or a store through a NULL pointer (undefined behavior). -/
inductive PostOutcome
  | ret (code : Int) (e : Engine)
  | blocked
  | nullDeref
deriving DecidableEq

/-- msk_post_n_send (lines 668-714), all under trans->lock: scan for the first
free slot (lines 676-688; with no free slot the caller waits on the condition
variable and rescans, which in a single-thread run never returns); mark the
slot used and fill it (lines 692-695); allocate a queue node and append it at
the tail of the pending queue (lines 697-707); broadcast and return 0 (lines
709-713). The node allocation at line 698 is never checked: when that malloc
fails, line 699 stores through the NULL node pointer. The parameter allocOk
tells whether the malloc succeeds. msk_post_n_recv (lines 609-654) performs
the same steps on the other pool and queue (without the broadcast). -/
def msk_post_n_send (allocOk : Bool) (e : Engine) (p : Nat) (cb : Bool) : PostOutcome :=
  match findFree e.pool with
  | none => PostOutcome.blocked
  | some i =>
    if allocOk then
      PostOutcome.ret 0
        { e with
          pool := e.pool.set i { used := true, pdata := p, callback := cb }
          ctxq := e.ctxq ++ [i]
          posted := e.posted ++ [(p, cb)] }
    else PostOutcome.nullDeref

/-- The successful-allocation post as a state step. -/
def postStep (e : Engine) (p : Nat) (cb : Bool) : Option Engine :=
  match msk_post_n_send true e p cb with
  | PostOutcome.ret _ e2 => some e2
  | _ => none

/-- One iteration of a worker body on its queue (msk_send_thread lines 192-207,
msk_recv_thread lines 224-240): when the queue is non-empty, take the head
node, move the payload through the mailbox under the mailbox semaphore, fire
the completion callback when one is registered, free the node, unlink it, and
only then clear the in-use flag of the slot. A wakeup with an empty queue does
nothing. (The C code frees the node one statement before reading its next
pointer; the embedding performs the pop with the value the node held.) -/
def serviceStep (e : Engine) : Engine :=
  match e.ctxq with
  | [] => e
  | i :: rest =>
    let c := e.pool.getD i ctxDefault
    { e with
      pool := e.pool.set i { c with used := false }
      ctxq := rest
      serviced := e.serviced ++ [(c.pdata, c.callback)]
      fired := e.fired ++ (if c.callback then [c.pdata] else []) }

/-- An interleaving of producer posts and worker iterations on one direction. -/
inductive EngineOp
  | post (p : Nat) (cb : Bool)
  | service
deriving DecidableEq

/-- Run a sequence of operations; none when a post blocks forever because the
pool stays exhausted. -/
def runEngine : List EngineOp → Engine → Option Engine
  | [], e => some e
  | EngineOp.post p cb :: ops, e =>
    match postStep e p cb with
    | none => none
    | some e2 => runEngine ops e2
  | EngineOp.service :: ops, e => runEngine ops (serviceStep e)

/-- The payloads (with their callback flags) still sitting in the pending
queue, read through the slots the queue nodes point at, head first. -/
def queueEntries (e : Engine) : List (Nat × Bool) :=
  e.ctxq.map (fun i => ((e.pool.getD i ctxDefault).pdata, (e.pool.getD i ctxDefault).callback))

/-- The engine invariant: every queued index is a valid slot whose in-use flag
is set, no slot is queued twice, the posts are exactly the serviced requests
followed by the still-queued ones, and the callbacks fired are exactly the
serviced requests that carried a callback, in order. -/
def EngineInv (e : Engine) : Prop :=
  (∀ i ∈ e.ctxq, i < e.pool.length ∧ (e.pool.getD i ctxDefault).used = true)
  ∧ e.ctxq.Nodup
  ∧ e.posted = e.serviced ++ queueEntries e
  ∧ e.fired = (e.serviced.filter (fun q => q.2)).map (fun q => q.1)

/-- The observable actions of one worker-body iteration, in program order. -/
inductive WorkerEvent
  | acquireShm
  | writeSize
  | writeData
  | releaseShm
  | signalSend
  | readSize
  | copyData
  | fireCallback
  | freeNode
  | unlinkHead
  | clearUsed
  | lockMutex
  | broadcastCond
  | unlockMutex
deriving DecidableEq

/-- msk_send_thread body, lines 193-206, in statement order: semop(SHM,-1);
write the length; memcpy into the segment; semop(SHM,+1); semop(SEND,+1);
callback when registered; free the head node; advance the head pointer;
clear the in-use flag; broadcast. -/
def msk_send_thread_body_events : List WorkerEvent :=
  [WorkerEvent.acquireShm, WorkerEvent.writeSize, WorkerEvent.writeData,
   WorkerEvent.releaseShm, WorkerEvent.signalSend, WorkerEvent.fireCallback,
   WorkerEvent.freeNode, WorkerEvent.unlinkHead, WorkerEvent.clearUsed,
   WorkerEvent.broadcastCond]

/-- msk_recv_thread body, lines 225-239, in statement order: semop(SHM,-1);
overwrite the buffer length from the segment; memcpy out of the segment;
semop(SHM,+1); callback when registered; free the head node; advance the head
pointer; clear the in-use flag; lock; broadcast; unlock. -/
def msk_recv_thread_body_events : List WorkerEvent :=
  [WorkerEvent.acquireShm, WorkerEvent.readSize, WorkerEvent.copyData,
   WorkerEvent.releaseShm, WorkerEvent.fireCallback, WorkerEvent.freeNode,
   WorkerEvent.unlinkHead, WorkerEvent.clearUsed, WorkerEvent.lockMutex,
   WorkerEvent.broadcastCond, WorkerEvent.unlockMutex]

/-- Position of the first occurrence of an event in a body. -/
def idxOfEvent : List WorkerEvent → WorkerEvent → Nat
  | [], _ => 0
  | x :: rest, a => if x = a then 0 else idxOfEvent rest a + 1

/-- The receiver-thread state the loop exit of lines 241-247 touches: the
direction engine it services, the connection state, whether a disconnect
callback was registered, and a ghost count of its invocations. -/
structure RecvThreadSt where
  engine : Engine
  state : msk_state
  disconnect_registered : Bool
  disconnect_calls : Nat
deriving DecidableEq

/-- msk_recv_thread lines 223-247: iterate while semop(RECV_SEM,-1) succeeds
(each success services the queue once); on the first failed wait leave the
loop, set trans->state = MSK_CLOSED, invoke the disconnect callback when one
is registered, and exit the thread. The trace lists the successive wait
results; none means the trace ended with the thread still blocked in the
loop. -/
def msk_recv_loop : List Bool → RecvThreadSt → Option RecvThreadSt
  | [], _ => none
  | ok :: rest, st =>
    if ok then
      msk_recv_loop rest { st with engine := serviceStep st.engine }
    else
      some { st with
        state := msk_state.MSK_CLOSED
        disconnect_calls := st.disconnect_calls + (if st.disconnect_registered then 1 else 0) }

/-- The mailbox segment (struct msk_shm, lines 77-84, through shm->shm): the
32-bit length field followed by the byte region. -/
structure shm_mailbox where
  size : Nat
  data : List Nat
deriving DecidableEq

/-- msk_data_t as the workers use it: the mutable length field, the bytes, and
the capacity of the allocation backing the buffer. trans_shm.c never consults
the capacity. -/
structure msk_data_model where
  max_size : Nat
  size : Nat
  data : List Nat
deriving DecidableEq

/-- Lines 227-228 of msk_recv_thread: ctx->pdata->size = shm->shm->size, then
memcpy(ctx->pdata->data, &shm->shm->data, ctx->pdata->size). The result pairs
the updated buffer with the number of bytes the memcpy moves; the bytes land
at the start of the buffer of the caller whatever its capacity. -/
def msk_recv_service (shm : shm_mailbox) (pdata : msk_data_model) : msk_data_model × Nat :=
  let n := shm.size
  ({ pdata with size := n, data := shm.data.take n ++ pdata.data.drop n }, n)

/-- The cross-process state a transport call can touch: the mailbox and the
two direction engines. -/
structure RdmaWorld where
  mailbox : shm_mailbox
  send_engine : Engine
  recv_engine : Engine
deriving DecidableEq

/-- Invocation record for one entry point: returned code, the world after the
call, how many completion and error callbacks ran, and how many bytes were
copied. -/
structure StubEffects where
  result : Int
  world : RdmaWorld
  completion_calls : Nat
  error_calls : Nat
  bytes_copied : Nat
deriving DecidableEq

/-- msk_post_n_read (lines 776-778): the body is a single return 0. -/
def msk_post_n_read (w : RdmaWorld) (data : msk_data_model) (num_sge : Int) (rloc : Nat) : StubEffects :=
  { result := 0, world := w, completion_calls := 0, error_calls := 0, bytes_copied := 0 }

/-- msk_post_n_write (lines 780-782): the body is a single return 0. -/
def msk_post_n_write (w : RdmaWorld) (data : msk_data_model) (num_sge : Int) (rloc : Nat) : StubEffects :=
  { result := 0, world := w, completion_calls := 0, error_calls := 0, bytes_copied := 0 }

/-- msk_wait_n_read (lines 784-786): the body is a single return 0. -/
def msk_wait_n_read (w : RdmaWorld) (data : msk_data_model) (num_sge : Int) (rloc : Nat) : StubEffects :=
  { result := 0, world := w, completion_calls := 0, error_calls := 0, bytes_copied := 0 }

/-- msk_wait_n_write (lines 789-791): the body is a single return 0. -/
def msk_wait_n_write (w : RdmaWorld) (data : msk_data_model) (num_sge : Int) (rloc : Nat) : StubEffects :=
  { result := 0, world := w, completion_calls := 0, error_calls := 0, bytes_copied := 0 }

/-- Semaphore selectors, lines 57-59. -/
def RECV_SEM : Nat := 0

def SEND_SEM : Nat := 1

def SHM_SEM : Nat := 2

/-- msk_finalize_accept (lines 493-499): semop -1, then 0, then +1, all on the
mailbox mutual-exclusion semaphore. -/
def msk_finalize_accept_ops : List (Nat × Int) := [(SHM_SEM, -1), (SHM_SEM, 0), (SHM_SEM, 1)]

/-- msk_finalize_connect (lines 546-551): semop -1 then 0 on the mailbox
mutual-exclusion semaphore, and nothing else. -/
def msk_finalize_connect_ops : List (Nat × Int) := [(SHM_SEM, -1), (SHM_SEM, 0)]

/-- The semaphore operation msk_accept_one performs right after spawning the
two worker threads (line 538). -/
def msk_accept_one_postspawn_ops : List (Nat × Int) := [(SHM_SEM, 1)]

/-- The semaphore operation msk_connect performs right after spawning the two
worker threads (line 589). -/
def msk_connect_postspawn_ops : List (Nat × Int) := [(SHM_SEM, 1)]

/-- msk_trans_attr_t as msk_init reads it (lines 324-328). -/
structure msk_trans_attr_t where
  server : Int
  timeout : Int
  sq_depth : Int
  rq_depth : Int
  disconnect_callback : Bool
deriving DecidableEq

/-- The connection fields msk_init establishes, plus the pointer fields that
the memset of line 320 leaves NULL. -/
structure msk_trans_fields where
  state : msk_state
  server : Int
  timeout : Int
  sq_depth : Int
  rq_depth : Int
  disconnect_callback : Bool
  send_buf : Bool
  recv_buf : Bool
  qp_present : Bool
deriving DecidableEq

/-- The connection right after the memset of line 320 (the state field is
overwritten at line 322 before anything reads it). -/
def msk_zeroed_trans : msk_trans_fields :=
  { state := msk_state.MSK_INIT
    server := 0
    timeout := 0
    sq_depth := 0
    rq_depth := 0
    disconnect_callback := false
    send_buf := false
    recv_buf := false
    qp_present := false }

/-- msk_init lines 320-328 with the allocation and the mutex and condition
variable constructions succeeding: zero the connection, set MSK_INIT, copy the
role, apply the C conditional defaults (a zero attribute selects 3000000 for
the timeout and 5 for each queue depth; any non-zero value is kept), and copy
the disconnect callback. -/
def msk_init (attr : msk_trans_attr_t) : msk_trans_fields :=
  { msk_zeroed_trans with
    state := msk_state.MSK_INIT
    server := attr.server
    timeout := if attr.timeout ≠ 0 then attr.timeout else 3000000
    sq_depth := if attr.sq_depth ≠ 0 then attr.sq_depth else 5
    rq_depth := if attr.rq_depth ≠ 0 then attr.rq_depth else 5
    disconnect_callback := attr.disconnect_callback }

/-- What an entry point does with the connection argument: return an integer
code, return a NULL connection pointer (msk_accept_one reports failure that
way), or dereference the argument. -/
inductive EntryOutcome
  | retCode (code : Int)
  | retNullTrans
  | nullDeref
deriving DecidableEq

/-- errno values the file returns (errno.h, Linux). -/
def EINVAL : Int := 22

def ENOMEM : Int := 12

/-- msk_connect (lines 560-592): the guard of lines 563-566 returns EINVAL on
a NULL connection before touching any state; a non-NULL connection continues
into setup and spawning, abstracted as the continuation. -/
def msk_connect_entry (trans : Option msk_trans_fields) (w : RdmaWorld)
    (onValid : msk_trans_fields → RdmaWorld → EntryOutcome × RdmaWorld) :
    EntryOutcome × RdmaWorld :=
  match trans with
  | none => (EntryOutcome.retCode EINVAL, w)
  | some t => onValid t w

/-- msk_accept_one (lines 508-540): the guard of lines 511-514 returns NULL on
a NULL connection before touching any state. -/
def msk_accept_one_entry (trans : Option msk_trans_fields) (w : RdmaWorld)
    (onValid : msk_trans_fields → RdmaWorld → EntryOutcome × RdmaWorld) :
    EntryOutcome × RdmaWorld :=
  match trans with
  | none => (EntryOutcome.retNullTrans, w)
  | some t => onValid t w

/-- msk_post_n_recv (lines 609-654): no NULL guard; the first statement,
pthread_mutex_lock(&trans->lock) at line 616, dereferences the argument. -/
def msk_post_n_recv_entry (trans : Option msk_trans_fields)
    (onValid : msk_trans_fields → EntryOutcome) : EntryOutcome :=
  match trans with
  | none => EntryOutcome.nullDeref
  | some t => onValid t

/-- msk_post_n_send (lines 668-714): no NULL guard; the first statement,
pthread_mutex_lock(&trans->lock) at line 674, dereferences the argument. -/
def msk_post_n_send_entry (trans : Option msk_trans_fields)
    (onValid : msk_trans_fields → EntryOutcome) : EntryOutcome :=
  match trans with
  | none => EntryOutcome.nullDeref
  | some t => onValid t

/-- msk_wait_n_recv (lines 735-749) forwards the connection unchecked to
msk_post_n_recv at line 740. -/
def msk_wait_n_recv_entry (trans : Option msk_trans_fields)
    (onValid : msk_trans_fields → EntryOutcome) : EntryOutcome :=
  msk_post_n_recv_entry trans onValid

/-- msk_wait_n_send (lines 759-773) forwards the connection unchecked to
msk_post_n_send at line 764. -/
def msk_wait_n_send_entry (trans : Option msk_trans_fields)
    (onValid : msk_trans_fields → EntryOutcome) : EntryOutcome :=
  msk_post_n_send_entry trans onValid

/-- State of a C pointer field: NULL, holding whatever uninitialized memory
held (reading through it or branching on it is undefined behavior), or
pointing at a live allocation. -/
inductive CPtr
  | pnull
  | garbage
  | alloc
deriving DecidableEq

/-- The heap objects and OS handles msk_setup_buffer and msk_destroy_buffer
manage. recv_buf and send_buf are the two context pools; qp, qp_context,
send_cq, send_cq_context, recv_cq and recv_cq_context are the five records
hung off trans->qp (the inner pointer fields are meaningful only while their
parent is alloc); the shm and sem flags say which OS objects this connection
acquired and still holds. -/
structure SetupWorld where
  recv_buf : Bool
  send_buf : Bool
  qp : CPtr
  qp_context : CPtr
  send_cq : CPtr
  send_cq_context : CPtr
  recv_cq : CPtr
  recv_cq_context : CPtr
  shm_segment : Bool
  shm_attached : Bool
  sem_shm : Bool
  sem_send : Bool
  sem_recv : Bool
deriving DecidableEq

/-- The world msk_setup_buffer starts from: every trans pointer NULL after the
memset of msk_init line 320; inner fields of unallocated records carry
garbage; no OS handle held. -/
def initialSetupWorld : SetupWorld :=
  { recv_buf := false
    send_buf := false
    qp := CPtr.pnull
    qp_context := CPtr.garbage
    send_cq := CPtr.garbage
    send_cq_context := CPtr.garbage
    recv_cq := CPtr.garbage
    recv_cq_context := CPtr.garbage
    shm_segment := false
    shm_attached := false
    sem_shm := false
    sem_send := false
    sem_recv := false }

/-- Tail of msk_destroy_buffer, lines 272-277: remove the shared segment and
free the mailbox record when trans->qp->qp_context is non-NULL (branching on a
garbage value is undefined behavior), then free trans->qp. Note the mailbox
mutual-exclusion semaphore held inside the mailbox record is never removed. -/
def msk_destroy_buffer_tail1 (w : SetupWorld) : Option SetupWorld :=
  match w.qp_context with
  | CPtr.garbage => none
  | CPtr.pnull => some { w with qp := CPtr.pnull }
  | CPtr.alloc =>
    some { w with shm_segment := false, qp_context := CPtr.pnull, qp := CPtr.pnull }

/-- Middle of msk_destroy_buffer, lines 268-271: reading
trans->qp->recv_cq->cq_context dereferences recv_cq (NULL or garbage is
undefined behavior); when the context is non-NULL remove its semaphore set and
free it. The recv_cq record itself is never freed. -/
def msk_destroy_buffer_tail2 (w : SetupWorld) : Option SetupWorld :=
  match w.recv_cq with
  | CPtr.pnull => none
  | CPtr.garbage => none
  | CPtr.alloc =>
    match w.recv_cq_context with
    | CPtr.garbage => none
    | CPtr.pnull => msk_destroy_buffer_tail1 w
    | CPtr.alloc =>
      msk_destroy_buffer_tail1 { w with sem_recv := false, recv_cq_context := CPtr.pnull }

/-- msk_destroy_buffer (lines 255-279): free the two pools (lines 256-260);
read trans->qp->send_cq->cq_context (lines 262-265) - dereferencing a NULL or
garbage qp or send_cq is undefined behavior - removing the send semaphore set
and freeing the context when it is non-NULL; free send_cq (lines 266-267);
then the recv side and the mailbox record. none models the undefined-behavior
reads. -/
def msk_destroy_buffer (w0 : SetupWorld) : Option SetupWorld :=
  let w := { w0 with send_buf := false, recv_buf := false }
  match w.qp with
  | CPtr.pnull => none
  | CPtr.garbage => none
  | CPtr.alloc =>
    match w.send_cq with
    | CPtr.pnull => none
    | CPtr.garbage => none
    | CPtr.alloc =>
      match w.send_cq_context with
      | CPtr.garbage => none
      | CPtr.pnull => msk_destroy_buffer_tail2 { w with send_cq := CPtr.pnull }
      | CPtr.alloc =>
        msk_destroy_buffer_tail2
          { w with sem_send := false, send_cq_context := CPtr.pnull, send_cq := CPtr.pnull }

/-- Which of the fallible steps of msk_setup_buffer succeed. The four semget
calls return a raw SysV id: -1 on failure, a non-negative id on success (the
code, however, tests the id against 0, see msk_setup_buffer). sem_errno is
the errno value the error branches read. -/
structure SetupOracle where
  malloc_recv_buf : Bool
  malloc_send_buf : Bool
  malloc_qp : Bool
  malloc_qp_context : Bool
  shmget_ok : Bool
  shmget_errno : Int
  shmat_ok : Bool
  shmat_errno : Int
  semget_shm : Int
  malloc_send_cq : Bool
  malloc_send_cq_context : Bool
  semget_send : Int
  malloc_recv_cq : Bool
  malloc_recv_cq_context : Bool
  semget_recv : Int
  sem_errno : Int
deriving DecidableEq

/-- Result of msk_setup_buffer: success with the final world, an error code
returned to the caller with the world left behind, or a crash (undefined
behavior reached, in this file always inside msk_destroy_buffer). -/
inductive SetupResult
  | ok (w : SetupWorld)
  | err (code : Int) (w : SetupWorld)
  | crash
deriving DecidableEq

/-- The failure path of the malloc steps of msk_setup_buffer (lines 367, 376,
383, 414, 421, 436, 443): call msk_destroy_buffer and return ENOMEM. -/
def msk_setup_fail_path (w : SetupWorld) : SetupResult :=
  match msk_destroy_buffer w with
  | none => SetupResult.crash
  | some w2 => SetupResult.err ENOMEM w2

/-- msk_setup_buffer (lines 352-459), step by step. malloc failures call
msk_destroy_buffer and return ENOMEM. The shmget failure (checked against -1,
lines 391-396) and the shmat failure (lines 397-402) return errno directly
with no cleanup at all. Each semget stores its raw return and the code then
tests it with the C negation (failure branch taken only when the id is 0,
lines 405-410, 428-433, 451-456), so a true semget failure (-1) falls
through; the branch that is taken returns errno with no cleanup. -/
def msk_setup_buffer (o : SetupOracle) : SetupResult :=
  let w0 := initialSetupWorld
  if !o.malloc_recv_buf then SetupResult.err ENOMEM w0 else
  let w1 := { w0 with recv_buf := true }
  if !o.malloc_send_buf then msk_setup_fail_path w1 else
  let w2 := { w1 with send_buf := true }
  if !o.malloc_qp then msk_setup_fail_path w2 else
  let w3 := { w2 with qp := CPtr.alloc, qp_context := CPtr.garbage,
                      send_cq := CPtr.garbage, recv_cq := CPtr.garbage }
  let w4 := { w3 with qp_context := if o.malloc_qp_context then CPtr.alloc else CPtr.pnull }
  if !o.malloc_qp_context then msk_setup_fail_path w4 else
  if !o.shmget_ok then SetupResult.err o.shmget_errno w4 else
  let w5 := { w4 with shm_segment := true }
  if !o.shmat_ok then SetupResult.err o.shmat_errno w5 else
  let w6 := { w5 with shm_attached := true }
  let w7 := { w6 with sem_shm := o.semget_shm != -1 }
  if o.semget_shm == 0 then SetupResult.err o.sem_errno w7 else
  let w8 := { w7 with send_cq := if o.malloc_send_cq then CPtr.alloc else CPtr.pnull,
                      send_cq_context := CPtr.garbage }
  if !o.malloc_send_cq then msk_setup_fail_path w8 else
  let w9 := { w8 with send_cq_context := if o.malloc_send_cq_context then CPtr.alloc else CPtr.pnull }
  if !o.malloc_send_cq_context then msk_setup_fail_path w9 else
  let w10 := { w9 with sem_send := o.semget_send != -1 }
  if o.semget_send == 0 then SetupResult.err o.sem_errno w10 else
  let w11 := { w10 with recv_cq := if o.malloc_recv_cq then CPtr.alloc else CPtr.pnull,
                        recv_cq_context := CPtr.garbage }
  if !o.malloc_recv_cq then msk_setup_fail_path w11 else
  let w12 := { w11 with recv_cq_context := if o.malloc_recv_cq_context then CPtr.alloc else CPtr.pnull }
  if !o.malloc_recv_cq_context then msk_setup_fail_path w12 else
  let w13 := { w12 with sem_recv := o.semget_recv != -1 }
  if o.semget_recv == 0 then SetupResult.err o.sem_errno w13 else
  SetupResult.ok w13

/-- An oracle on which every heap allocation succeeds and shmget fails with
errno 13 (EACCES). -/
def c3ShmgetFailOracle : SetupOracle :=
  { malloc_recv_buf := true, malloc_send_buf := true, malloc_qp := true
    malloc_qp_context := true, shmget_ok := false, shmget_errno := 13
    shmat_ok := true, shmat_errno := 0, semget_shm := 1
    malloc_send_cq := true, malloc_send_cq_context := true, semget_send := 1
    malloc_recv_cq := true, malloc_recv_cq_context := true, semget_recv := 1
    sem_errno := 0 }

/-- The world msk_setup_buffer leaves behind on that oracle: both pools, the
queue-pair record and the mailbox record still allocated. -/
def c3LeakWorld : SetupWorld :=
  { recv_buf := true
    send_buf := true
    qp := CPtr.alloc
    qp_context := CPtr.alloc
    send_cq := CPtr.garbage
    send_cq_context := CPtr.garbage
    recv_cq := CPtr.garbage
    recv_cq_context := CPtr.garbage
    shm_segment := false
    shm_attached := false
    sem_shm := false
    sem_send := false
    sem_recv := false }

/-- An oracle on which every step succeeds except the mailbox-mutex semget,
which really fails (raw return -1). -/
def c3SemgetFailOracle : SetupOracle :=
  { malloc_recv_buf := true, malloc_send_buf := true, malloc_qp := true
    malloc_qp_context := true, shmget_ok := true, shmget_errno := 0
    shmat_ok := true, shmat_errno := 0, semget_shm := -1
    malloc_send_cq := true, malloc_send_cq_context := true, semget_send := 1
    malloc_recv_cq := true, malloc_recv_cq_context := true, semget_recv := 1
    sem_errno := 0 }

/-- The world msk_setup_buffer reports success with on that oracle: everything
allocated but no mailbox-mutex semaphore. -/
def c3SemgetWorld : SetupWorld :=
  { recv_buf := true
    send_buf := true
    qp := CPtr.alloc
    qp_context := CPtr.alloc
    send_cq := CPtr.alloc
    send_cq_context := CPtr.alloc
    recv_cq := CPtr.alloc
    recv_cq_context := CPtr.alloc
    shm_segment := true
    shm_attached := true
    sem_shm := false
    sem_send := true
    sem_recv := true }

/-- An oracle on which the second pool allocation fails: the cleanup path then
dereferences the still-NULL trans->qp. -/
def c3MallocFailOracle : SetupOracle :=
  { malloc_recv_buf := true, malloc_send_buf := false, malloc_qp := true
    malloc_qp_context := true, shmget_ok := true, shmget_errno := 0
    shmat_ok := true, shmat_errno := 0, semget_shm := 1
    malloc_send_cq := true, malloc_send_cq_context := true, semget_send := 1
    malloc_recv_cq := true, malloc_recv_cq_context := true, semget_recv := 1
    sem_errno := 0 }

/-- Concrete post and service interleaving for the C1 witness. -/
def c1Ops : List EngineOp :=
  [EngineOp.post 10 true, EngineOp.post 20 true, EngineOp.service, EngineOp.service]

/-- The engine c1Ops produces from a fresh depth-2 direction. -/
def c1Final : Engine :=
  { pool := [{ used := false, pdata := 10, callback := true },
             { used := false, pdata := 20, callback := true }]
    ctxq := []
    posted := [(10, true), (20, true)]
    serviced := [(10, true), (20, true)]
    fired := [10, 20] }

/-- Concrete interleaving for the C6 witness, leaving one request queued. -/
def c6Ops : List EngineOp :=
  [EngineOp.post 5 true, EngineOp.post 6 false, EngineOp.service]

/-- The engine c6Ops produces from a fresh depth-2 direction. -/
def c6Final : Engine :=
  { pool := [{ used := false, pdata := 5, callback := true },
             { used := true, pdata := 6, callback := false }]
    ctxq := [1]
    posted := [(5, true), (6, false)]
    serviced := [(5, true)]
    fired := [5] }

/-- Concrete receiver-thread start state for the C5 witness. -/
def c5Start : RecvThreadSt :=
  { engine := initEngine 1
    state := msk_state.MSK_INIT
    disconnect_registered := true
    disconnect_calls := 0 }

/-! Helper lemmas about list updates and the slot scan. -/

theorem getD_set_ne {α : Type} (l : List α) (i j : Nat) (a d : α) (hij : i ≠ j) :
    (l.set i a).getD j d = l.getD j d := by
  induction l generalizing i j with
  | nil => rfl
  | cons x xs ih =>
    cases i with
    | zero =>
      cases j with
      | zero => exact absurd rfl hij
      | succ j => rfl
    | succ i =>
      cases j with
      | zero => rfl
      | succ j => exact ih i j (fun h => hij (congrArg Nat.succ h))

theorem getD_set_self {α : Type} (l : List α) (i : Nat) (a d : α) (h : i < l.length) :
    (l.set i a).getD i d = a := by
  induction l generalizing i with
  | nil => simp at h
  | cons x xs ih =>
    cases i with
    | zero => rfl
    | succ i => exact ih i (Nat.lt_of_succ_lt_succ h)

theorem findFree_lt {l : List msk_ctx} {i : Nat} (h : findFree l = some i) :
    i < l.length := by
  induction l generalizing i with
  | nil => simp [findFree] at h
  | cons c rest ih =>
    cases hc : c.used with
    | true =>
      simp [findFree, hc] at h
      obtain ⟨k, hk, hki⟩ := h
      subst hki
      exact Nat.succ_lt_succ (ih hk)
    | false =>
      simp [findFree, hc] at h
      subst h
      simp

theorem findFree_free {l : List msk_ctx} {i : Nat} (h : findFree l = some i) :
    (l.getD i ctxDefault).used = false := by
  induction l generalizing i with
  | nil => simp [findFree] at h
  | cons c rest ih =>
    cases hc : c.used with
    | true =>
      simp [findFree, hc] at h
      obtain ⟨k, hk, hki⟩ := h
      subst hki
      simpa using ih hk
    | false =>
      simp [findFree, hc] at h
      subst h
      simpa using hc

/-- Characterization of a successful post: the scan found slot i, the slot is
filled, the node sits at the tail of the queue. -/
theorem postStep_eq {e : Engine} {p : Nat} {cb : Bool} {e2 : Engine}
    (h : postStep e p cb = some e2) :
    ∃ i, findFree e.pool = some i
      ∧ e2 = { e with
               pool := e.pool.set i { used := true, pdata := p, callback := cb }
               ctxq := e.ctxq ++ [i]
               posted := e.posted ++ [(p, cb)] } := by
  unfold postStep msk_post_n_send at h
  cases hf : findFree e.pool with
  | none => rw [hf] at h; simp at h
  | some i =>
    rw [hf] at h
    simp at h
    exact ⟨i, rfl, h.symm⟩

/-- A post preserves the engine invariant. -/
theorem inv_postStep {e e2 : Engine} {p : Nat} {cb : Bool}
    (hinv : EngineInv e) (h : postStep e p cb = some e2) : EngineInv e2 := by
  obtain ⟨i, hf, rfl⟩ := postStep_eq h
  obtain ⟨h1, h2, h3, h4⟩ := hinv
  have hi : i < e.pool.length := findFree_lt hf
  have hfree : (e.pool.getD i ctxDefault).used = false := findFree_free hf
  have hnot : i ∉ e.ctxq := by
    intro hmem
    have := (h1 i hmem).2
    rw [this] at hfree
    exact Bool.noConfusion hfree
  refine ⟨?_, ?_, ?_, ?_⟩
  · intro j hj
    rcases List.mem_append.mp hj with hj1 | hj2
    · have hji : i ≠ j := fun hq => hnot (hq ▸ hj1)
      refine ⟨?_, ?_⟩
      · simpa [List.length_set] using (h1 j hj1).1
      · rw [getD_set_ne _ _ _ _ _ hji]
        exact (h1 j hj1).2
    · have hji : j = i := by simpa using hj2
      subst hji
      refine ⟨?_, ?_⟩
      · simpa [List.length_set] using hi
      · rw [getD_set_self _ _ _ _ hi]
  · rw [List.nodup_append]
    refine ⟨h2, List.nodup_singleton i, ?_⟩
    intro a ha hb
    have hai : a = i := by simpa using hb
    subst hai
    exact hnot ha
  · show e.posted ++ [(p, cb)] = e.serviced ++ queueEntries _
    rw [h3]
    unfold queueEntries
    simp only [List.map_append]
    have hmap :
        e.ctxq.map (fun j =>
            (((e.pool.set i { used := true, pdata := p, callback := cb }).getD j ctxDefault).pdata,
             ((e.pool.set i { used := true, pdata := p, callback := cb }).getD j ctxDefault).callback))
          = e.ctxq.map (fun j =>
              ((e.pool.getD j ctxDefault).pdata, (e.pool.getD j ctxDefault).callback)) := by
      apply List.map_congr_left
      intro j hj
      have hji : i ≠ j := fun hq => hnot (hq ▸ hj)
      rw [getD_set_ne _ _ _ _ _ hji]
    rw [hmap]
    have hset := getD_set_self e.pool i { used := true, pdata := p, callback := cb } ctxDefault hi
    have hone :
        ([i].map (fun j =>
            (((e.pool.set i { used := true, pdata := p, callback := cb }).getD j ctxDefault).pdata,
             ((e.pool.set i { used := true, pdata := p, callback := cb }).getD j ctxDefault).callback))
          = [(p, cb)]) := by
      simp only [List.map_cons, List.map_nil]
      rw [hset]
    rw [hone, List.append_assoc]
  · exact h4

/-- A worker-body iteration preserves the engine invariant. -/
theorem inv_serviceStep {e : Engine} (hinv : EngineInv e) : EngineInv (serviceStep e) := by
  obtain ⟨h1, h2, h3, h4⟩ := hinv
  cases hq : e.ctxq with
  | nil =>
    simpa [serviceStep, hq] using ⟨h1, h2, h3, h4⟩
  | cons i rest =>
    have hmemi : i ∈ e.ctxq := by rw [hq]; exact List.mem_cons_self i rest
    have hi : i < e.pool.length := (h1 i hmemi).1
    have hnd := h2
    rw [hq, List.nodup_cons] at hnd
    obtain ⟨hni, hndr⟩ := hnd
    have hstep : serviceStep e =
        { e with
          pool := e.pool.set i { e.pool.getD i ctxDefault with used := false }
          ctxq := rest
          serviced := e.serviced ++ [((e.pool.getD i ctxDefault).pdata, (e.pool.getD i ctxDefault).callback)]
          fired := e.fired ++
            (if (e.pool.getD i ctxDefault).callback then [(e.pool.getD i ctxDefault).pdata] else []) } := by
      unfold serviceStep
      rw [hq]
    rw [hstep]
    refine ⟨?_, hndr, ?_, ?_⟩
    · intro j hj
      have hji : i ≠ j := fun hq2 => hni (hq2 ▸ hj)
      have hmemj : j ∈ e.ctxq := by rw [hq]; exact List.mem_cons_of_mem i hj
      refine ⟨?_, ?_⟩
      · simpa [List.length_set] using (h1 j hmemj).1
      · rw [getD_set_ne _ _ _ _ _ hji]
        exact (h1 j hmemj).2
    · show e.posted = _ ++ queueEntries _
      rw [h3]
      unfold queueEntries
      rw [hq]
      simp only [List.map_cons]
      have hmap :
          rest.map (fun j =>
              (((e.pool.set i { e.pool.getD i ctxDefault with used := false }).getD j ctxDefault).pdata,
               ((e.pool.set i { e.pool.getD i ctxDefault with used := false }).getD j ctxDefault).callback))
            = rest.map (fun j =>
                ((e.pool.getD j ctxDefault).pdata, (e.pool.getD j ctxDefault).callback)) := by
        apply List.map_congr_left
        intro j hj
        have hji : i ≠ j := fun hq2 => hni (hq2 ▸ hj)
        rw [getD_set_ne _ _ _ _ _ hji]
      rw [hmap]
      simp
    · show e.fired ++ _ = _
      rw [h4, List.filter_append, List.map_append]
      cases hcb : (e.pool.getD i ctxDefault).callback <;> simp [hcb]

/-- A fresh engine satisfies the invariant. -/
theorem initEngine_inv (d : Nat) : EngineInv (initEngine d) := by
  refine ⟨?_, ?_, ?_, ?_⟩ <;> simp [initEngine, queueEntries]

/-- Every engine reachable by a run from a fresh direction satisfies the
invariant. -/
theorem runEngine_inv (ops : List EngineOp) (e0 e : Engine)
    (h0 : EngineInv e0) (h : runEngine ops e0 = some e) : EngineInv e := by
  induction ops generalizing e0 with
  | nil =>
    simp [runEngine] at h
    exact h ▸ h0
  | cons op rest ih =>
    cases op with
    | post p cb =>
      simp only [runEngine] at h
      cases hp : postStep e0 p cb with
      | none => rw [hp] at h; exact absurd h (by simp)
      | some e1 =>
        rw [hp] at h
        exact ih e1 (inv_postStep h0 hp) h
    | service =>
      simp only [runEngine] at h
      exact ih (serviceStep e0) (inv_serviceStep h0) h

/-! The claims. -/

/-- Claim C1: for every sequence of post-send calls on one connection, the
pending queue is appended at the tail under the connection lock and the sender
worker services the head node first, so in every reachable state the requests
already moved through the mailbox are exactly the first posts in post order
(the rest still queued, in order), the completion callbacks fired are exactly
the serviced posts that carried a callback, in that same order, and once the
queue drains the mailbox order equals the post order. -/
theorem C1_send_fifo (d : Nat) (ops : List EngineOp) (e : Engine)
    (h : runEngine ops (initEngine d) = some e) :
    e.posted = e.serviced ++ queueEntries e
    ∧ e.fired = (e.serviced.filter (fun q => q.2)).map (fun q => q.1)
    ∧ (e.ctxq = [] → e.posted = e.serviced) := by
  obtain ⟨h1, h2, h3, h4⟩ := runEngine_inv ops (initEngine d) e (initEngine_inv d) h
  refine ⟨h3, h4, fun hq => ?_⟩
  rw [h3]
  simp [queueEntries, hq]

/-- Witness for C1 at a concrete run: two posts then two service iterations on
a depth-2 direction. -/
theorem C1_send_fifo_witness :
    runEngine c1Ops (initEngine 2) = some c1Final
    ∧ (c1Final.posted = c1Final.serviced ++ queueEntries c1Final
       ∧ c1Final.fired = (c1Final.serviced.filter (fun q => q.2)).map (fun q => q.1)
       ∧ (c1Final.ctxq = [] → c1Final.posted = c1Final.serviced)) :=
  ⟨by decide, C1_send_fifo 2 c1Ops c1Final (by decide)⟩

/-- Claim C2: each of the four remote-memory entry points returns 0
immediately, leaves the world unchanged, copies no bytes, and invokes neither
the completion nor the error callback, for every input. -/
theorem C2_stub_contract (w : RdmaWorld) (data : msk_data_model) (num_sge : Int) (rloc : Nat) :
    msk_post_n_read w data num_sge rloc =
      { result := 0, world := w, completion_calls := 0, error_calls := 0, bytes_copied := 0 }
    ∧ msk_post_n_write w data num_sge rloc =
      { result := 0, world := w, completion_calls := 0, error_calls := 0, bytes_copied := 0 }
    ∧ msk_wait_n_read w data num_sge rloc =
      { result := 0, world := w, completion_calls := 0, error_calls := 0, bytes_copied := 0 }
    ∧ msk_wait_n_write w data num_sge rloc =
      { result := 0, world := w, completion_calls := 0, error_calls := 0, bytes_copied := 0 } :=
  ⟨rfl, rfl, rfl, rfl⟩

/-- Claim C3 (the code contradicts it): when shmget fails after the four heap
allocations, msk_setup_buffer returns the errno with both pools, the
queue-pair record and the mailbox record still allocated and no cleanup run;
when the mailbox-mutex semget really fails (raw return -1) the broken test
against 0 misses it and setup returns success without the semaphore; and when
the second pool allocation fails the cleanup path itself hits undefined
behavior dereferencing the still-NULL trans->qp. -/
theorem C3_setup_leak :
    (msk_setup_buffer c3ShmgetFailOracle = SetupResult.err 13 c3LeakWorld
     ∧ c3LeakWorld.recv_buf = true
     ∧ c3LeakWorld.send_buf = true
     ∧ c3LeakWorld.qp = CPtr.alloc
     ∧ c3LeakWorld.qp_context = CPtr.alloc)
    ∧ (msk_setup_buffer c3SemgetFailOracle = SetupResult.ok c3SemgetWorld
       ∧ c3SemgetWorld.sem_shm = false)
    ∧ msk_setup_buffer c3MallocFailOracle = SetupResult.crash := by
  decide

/-- Counterexample for C4: the connect-side rendezvous (msk_finalize_connect)
is not an acquire followed by a release; it performs no release of the
mailbox mutual-exclusion semaphore at all. -/
theorem C4_connect_counterexample :
    msk_finalize_connect_ops ≠ [(SHM_SEM, -1), (SHM_SEM, 1)]
    ∧ (SHM_SEM, (1 : Int)) ∉ msk_finalize_connect_ops := by
  decide

/-- Claim C4 as amended: right after spawning the workers each path releases
the mailbox mutual-exclusion semaphore once; the accept-side finalize then
performs acquire, zero-probe, release, while the connect-side finalize
performs acquire followed by the zero-probe only, with no release. -/
theorem C4_rendezvous_amended :
    msk_finalize_accept_ops = msk_finalize_connect_ops ++ [(SHM_SEM, 1)]
    ∧ msk_finalize_connect_ops = [(SHM_SEM, -1), (SHM_SEM, 0)]
    ∧ msk_accept_one_postspawn_ops = [(SHM_SEM, 1)]
    ∧ msk_connect_postspawn_ops = [(SHM_SEM, 1)] := by
  decide

/-- Claim C5: whenever the wait on the receive-ready semaphore fails, the
receiver loop exits, the connection state becomes MSK_CLOSED, and the
disconnect callback runs exactly once when registered and not at all
otherwise. -/
theorem C5_recv_fail_closes (waits : List Bool) (st : RecvThreadSt)
    (hfail : false ∈ waits) (h0 : st.disconnect_calls = 0) :
    ∃ st2, msk_recv_loop waits st = some st2
      ∧ st2.state = msk_state.MSK_CLOSED
      ∧ st2.disconnect_calls = (if st.disconnect_registered then 1 else 0) := by
  induction waits generalizing st with
  | nil => simp at hfail
  | cons ok rest ih =>
    cases ok with
    | false =>
      refine ⟨{ st with
                state := msk_state.MSK_CLOSED
                disconnect_calls :=
                  st.disconnect_calls + (if st.disconnect_registered then 1 else 0) },
              ?_, rfl, ?_⟩
      · simp [msk_recv_loop]
      · simp [h0]
    | true =>
      have hf : false ∈ rest := by simpa using hfail
      have hr := ih { st with engine := serviceStep st.engine } hf h0
      simpa [msk_recv_loop] using hr

/-- Witness for C5 at a concrete trace: one successful wait, then a failed
one, from a state with a registered disconnect callback. -/
theorem C5_recv_fail_closes_witness :
    false ∈ [true, false]
    ∧ c5Start.disconnect_calls = 0
    ∧ (∃ st2, msk_recv_loop [true, false] c5Start = some st2
        ∧ st2.state = msk_state.MSK_CLOSED
        ∧ st2.disconnect_calls = (if c5Start.disconnect_registered then 1 else 0)) :=
  ⟨by decide, rfl, C5_recv_fail_closes [true, false] c5Start (by decide) rfl⟩

/-- Claim C6: in every reachable state every slot reachable from a
pending-queue node has its in-use flag set, and in both worker bodies the
node is freed and unlinked strictly before the in-use flag of its slot is
cleared. -/
theorem C6_slot_invariant (d : Nat) (ops : List EngineOp) (e : Engine)
    (h : runEngine ops (initEngine d) = some e) :
    (∀ i ∈ e.ctxq, i < e.pool.length ∧ (e.pool.getD i ctxDefault).used = true)
    ∧ idxOfEvent msk_send_thread_body_events WorkerEvent.freeNode
        < idxOfEvent msk_send_thread_body_events WorkerEvent.clearUsed
    ∧ idxOfEvent msk_send_thread_body_events WorkerEvent.unlinkHead
        < idxOfEvent msk_send_thread_body_events WorkerEvent.clearUsed
    ∧ idxOfEvent msk_recv_thread_body_events WorkerEvent.freeNode
        < idxOfEvent msk_recv_thread_body_events WorkerEvent.clearUsed
    ∧ idxOfEvent msk_recv_thread_body_events WorkerEvent.unlinkHead
        < idxOfEvent msk_recv_thread_body_events WorkerEvent.clearUsed := by
  refine ⟨(runEngine_inv ops (initEngine d) e (initEngine_inv d) h).1, ?_, ?_, ?_, ?_⟩ <;> decide

/-- Witness for C6 at a concrete run that leaves one request in the queue. -/
theorem C6_slot_invariant_witness :
    runEngine c6Ops (initEngine 2) = some c6Final
    ∧ ((∀ i ∈ c6Final.ctxq, i < c6Final.pool.length ∧ (c6Final.pool.getD i ctxDefault).used = true)
       ∧ idxOfEvent msk_send_thread_body_events WorkerEvent.freeNode
           < idxOfEvent msk_send_thread_body_events WorkerEvent.clearUsed
       ∧ idxOfEvent msk_send_thread_body_events WorkerEvent.unlinkHead
           < idxOfEvent msk_send_thread_body_events WorkerEvent.clearUsed
       ∧ idxOfEvent msk_recv_thread_body_events WorkerEvent.freeNode
           < idxOfEvent msk_recv_thread_body_events WorkerEvent.clearUsed
       ∧ idxOfEvent msk_recv_thread_body_events WorkerEvent.unlinkHead
           < idxOfEvent msk_recv_thread_body_events WorkerEvent.clearUsed) :=
  ⟨by decide, C6_slot_invariant 2 c6Ops c6Final (by decide)⟩

/-- Counterexample for C7: a NULL connection passed to msk_post_n_send does
not yield the invalid-argument error the claim promises; the function
dereferences the NULL pointer. -/
theorem C7_null_counterexample :
    msk_post_n_send_entry none (fun _ => EntryOutcome.retCode 0) = EntryOutcome.nullDeref
    ∧ msk_post_n_send_entry none (fun _ => EntryOutcome.retCode 0) ≠ EntryOutcome.retCode EINVAL := by
  exact ⟨rfl, by decide⟩

/-- Claim C7 as amended: a NULL connection makes msk_connect return EINVAL and
msk_accept_one return NULL, both with no side effects, while the post-send,
post-receive and wait entry points perform no NULL check and dereference the
argument. -/
theorem C7_null_amended (w : RdmaWorld)
    (k : msk_trans_fields → RdmaWorld → EntryOutcome × RdmaWorld)
    (k2 : msk_trans_fields → EntryOutcome) :
    msk_connect_entry none w k = (EntryOutcome.retCode EINVAL, w)
    ∧ msk_accept_one_entry none w k = (EntryOutcome.retNullTrans, w)
    ∧ msk_post_n_recv_entry none k2 = EntryOutcome.nullDeref
    ∧ msk_post_n_send_entry none k2 = EntryOutcome.nullDeref
    ∧ msk_wait_n_recv_entry none k2 = EntryOutcome.nullDeref
    ∧ msk_wait_n_send_entry none k2 = EntryOutcome.nullDeref :=
  ⟨rfl, rfl, rfl, rfl, rfl, rfl⟩

/-- Counterexample for C8: when the queue-node allocation fails on a
connection with a free slot, the post call does not return an errno value; it
stores through the NULL node pointer. -/
theorem C8_alloc_counterexample :
    msk_post_n_send false (initEngine 2) 7 true = PostOutcome.nullDeref
    ∧ msk_post_n_send false (initEngine 2) 7 true ≠ PostOutcome.ret ENOMEM (initEngine 2) := by
  decide

/-- Claim C8 as amended: a post call returns 0 exactly when it returns at all,
and then a node holding the filled slot has been appended at the tail; with a
full pool it blocks; and when node allocation fails it never returns an
errno value - it either blocks or dereferences the NULL node. -/
theorem C8_post_return (e : Engine) (p : Nat) (cb : Bool) :
    (msk_post_n_send true e p cb = PostOutcome.blocked
      ∨ ∃ i, findFree e.pool = some i
          ∧ msk_post_n_send true e p cb = PostOutcome.ret 0
              { e with
                pool := e.pool.set i { used := true, pdata := p, callback := cb }
                ctxq := e.ctxq ++ [i]
                posted := e.posted ++ [(p, cb)] })
    ∧ (msk_post_n_send false e p cb = PostOutcome.blocked
      ∨ msk_post_n_send false e p cb = PostOutcome.nullDeref) := by
  constructor
  · unfold msk_post_n_send
    cases hf : findFree e.pool with
    | none => exact Or.inl rfl
    | some i => exact Or.inr ⟨i, rfl, rfl⟩
  · unfold msk_post_n_send
    cases findFree e.pool with
    | none => exact Or.inl rfl
    | some i => exact Or.inr rfl

/-- Claim C9: msk_init zeroes the connection, sets MSK_INIT, applies the
defaults (timeout 3000000 when the attribute is 0, queue depths 5 when 0) and
copies every set attribute unchanged. -/
theorem C9_init_defaults (attr : msk_trans_attr_t) :
    (msk_init attr).state = msk_state.MSK_INIT
    ∧ (msk_init attr).server = attr.server
    ∧ (msk_init attr).timeout = (if attr.timeout = 0 then 3000000 else attr.timeout)
    ∧ (msk_init attr).sq_depth = (if attr.sq_depth = 0 then 5 else attr.sq_depth)
    ∧ (msk_init attr).rq_depth = (if attr.rq_depth = 0 then 5 else attr.rq_depth)
    ∧ (msk_init attr).disconnect_callback = attr.disconnect_callback
    ∧ (msk_init attr).send_buf = false
    ∧ (msk_init attr).recv_buf = false
    ∧ (msk_init attr).qp_present = false := by
  refine ⟨rfl, rfl, ?_, ?_, ?_, rfl, rfl, rfl, rfl⟩
  · by_cases h : attr.timeout = 0 <;> simp [msk_init, h]
  · by_cases h : attr.sq_depth = 0 <;> simp [msk_init, h]
  · by_cases h : attr.rq_depth = 0 <;> simp [msk_init, h]

/-- Claim C10: servicing a posted receive overwrites the buffer length field
with the 32-bit length read from the mailbox and copies exactly that many
bytes, with no check against the capacity of the buffer; in particular a
mailbox length of 8 against a 4-byte buffer copies 8 bytes past a 4-byte
allocation. -/
theorem C10_recv_overrun :
    (∀ shm pdata, ((msk_recv_service shm pdata).1).size = shm.size
      ∧ (msk_recv_service shm pdata).2 = shm.size
      ∧ ((msk_recv_service shm pdata).1).max_size = pdata.max_size)
    ∧ (∃ shm pdata, pdata.max_size < (msk_recv_service shm pdata).2) := by
  constructor
  · intro shm pdata
    exact ⟨rfl, rfl, rfl⟩
  · exact ⟨⟨8, [1, 2, 3, 4, 5, 6, 7, 8]⟩, ⟨4, 0, [0, 0, 0, 0]⟩, by decide⟩
